import Mathlib

/-!
Verification development for the YouTube video-notes backend
(src/backend/main.py): a shallow embedding in Lean 4 of the video-id
extractor, the transcript fetch wrapper, the chunked two-stage
summarization pipeline, and the HTTP endpoint, together with theorems
about the testable properties of the design document.

Python strings are embedded as Lean String (lists of characters);
machine-level concerns (floats for the sampling temperature) are carried
as scaled naturals. The external LLM completion client is modelled as an
oracle function from a completion request to a result or an exception
message; the filesystem and the YouTube transcript API behind
get_transcript are likewise abstracted as an environment oracle.
-/

namespace YtNotes

/-- Characters of the regex character class `[0-9A-Za-z_-]` used by every
pattern of extract_video_id (src/backend/main.py lines 65-71). -/
def idChar (c : Char) : Bool :=
  (('0' ≤ c ∧ c ≤ '9') ∨ ('A' ≤ c ∧ c ≤ 'Z') ∨ ('a' ≤ c ∧ c ≤ 'z')
    ∨ c = '_' ∨ c = '-' : Prop) |> decide

/-- The regex piece `([0-9A-Za-z_-]{11})` anchored at the head of the list:
succeeds exactly when the next 11 characters are in the class, capturing
them.  The trailing `.*` of the first pattern never constrains a search. -/
def matchClass11 (l : List Char) : Option (List Char) :=
  let g := l.take 11
  if g.length = 11 ∧ g.all idChar then some g else none

/-- re.search for the pattern `(?:v=|\/)([0-9A-Za-z_-]{11}).*`
(src/backend/main.py line 66): scan left to right; at each position the
prefix alternative `v=` or `/` must match, immediately followed by 11
class characters (the capture group). -/
def searchVSlash : List Char → Option (List Char)
  | [] => none
  | c :: rest =>
      match (if c = 'v' ∧ rest.head? = some '=' then matchClass11 (rest.drop 1) else none) with
      | some g => some g
      | none =>
          match (if c = '/' then matchClass11 rest else none) with
          | some g => some g
          | none => searchVSlash rest

/-- re.search for a pattern `(?:LIT)([0-9A-Za-z_-]{11})` where LIT is a
literal string (the `embed/`, `youtu.be/` and `shorts/` patterns of
src/backend/main.py lines 67-69): scan left to right for the literal
followed by 11 class characters. -/
def searchLit (lit : List Char) : List Char → Option (List Char)
  | [] => none
  | c :: rest =>
      match (if lit.isPrefixOf (c :: rest) then matchClass11 ((c :: rest).drop lit.length) else none) with
      | some g => some g
      | none => searchLit lit rest

/-- The anchored pattern `^([0-9A-Za-z_-]{11})$` (src/backend/main.py
line 70): the whole string is exactly 11 class characters. -/
def matchBare (l : List Char) : Option (List Char) :=
  if l.length = 11 ∧ l.all idChar then some l else none

/-- Whitespace characters stripped by the Python str.strip() call on
line 73 of src/backend/main.py (the ASCII whitespace set). -/
def isSpaceChar (c : Char) : Bool :=
  (c = ' ' ∨ c = '\t' ∨ c = '\n' ∨ c = '\r' ∨ c = '\x0b' ∨ c = '\x0c' : Prop) |> decide

/-- Python str.strip(): drop whitespace from both ends of the character
list (src/backend/main.py line 73). -/
def pyStrip (l : List Char) : List Char :=
  ((l.dropWhile isSpaceChar).reverse.dropWhile isSpaceChar).reverse

/-- The pattern cascade of extract_video_id (src/backend/main.py lines
65-77) applied to the already-stripped character list: the five patterns
are tried in source order and the first match returns its capture group. -/
def extractCore (l : List Char) : Option (List Char) :=
  match searchVSlash l with
  | some g => some g
  | none =>
      match searchLit "embed/".data l with
      | some g => some g
      | none =>
          match searchLit "youtu.be/".data l with
          | some g => some g
          | none =>
              match searchLit "shorts/".data l with
              | some g => some g
              | none => matchBare l

/-- extract_video_id (src/backend/main.py lines 64-79): strip the input,
try the five patterns in order, return the captured group, or raise
ValueError — embedded as Except with the exception message. -/
def extract_video_id (youtube_url : String) : Except String String :=
  match extractCore (pyStrip youtube_url.data) with
  | some g => Except.ok (String.mk g)
  | none => Except.error "Could not extract video ID from URL"

/-- Modelled from the spec: the Chunker. The repository delegates chunking
to langchain RecursiveCharacterTextSplitter(chunk_size=7000,
chunk_overlap=1000, length_function=len) (src/backend/main.py line 113),
whose implementation is not under src/. Following the design document,
section 4.1: segments cover the input in order, segment i+1 begins S - O
characters after segment i begins, every segment has length at most S
(the final one may be shorter), an input shorter than S yields exactly
one segment, and the empty input yields the empty sequence. The guard
S ≤ O falls outside the contract precondition O < S and degenerates to a
single segment. -/
def chunkText (S O : Nat) (l : List Char) : List (List Char) :=
  if l.isEmpty then []
  else if l.length ≤ S ∨ S ≤ O then [l]
  else l.take S :: chunkText S O (l.drop (S - O))
termination_by l.length
decreasing_by
  simp only [List.length_drop]
  simp only [List.isEmpty_iff, not_or, not_le] at *
  omega

/-- The chunk list the pipeline summarizes: the transcript split with
maximum segment size 7000 and overlap 1000 (src/backend/main.py
lines 113-114), each segment read back as a string. -/
def pipelineChunks (transcript : String) : List String :=
  (chunkText 7000 1000 transcript.data).map String.mk

/-- One role-tagged message of a completion request
(src/backend/main.py lines 121-124 and 159-162). -/
structure ChatMessage where
  role : String
  content : String
deriving DecidableEq, Repr

/-- One call to groq_client.chat.completions.create
(src/backend/main.py lines 119-127 and 157-165). The sampling
temperature 0.7 is carried in tenths since floats have no shallow
embedding; both call sites fix it to 7 tenths and max_tokens to 8000. -/
structure CompletionRequest where
  model : String
  messages : List ChatMessage
  temperatureTenths : Nat
  max_tokens : Nat
deriving DecidableEq, Repr

/-- The external LLM completion service: a deterministic oracle mapping a
request to the generated text or to the message of the raised exception. -/
def Oracle : Type := CompletionRequest → Except String String

/-- fastapi.HTTPException as raised by the backend: a status code and a
detail message. -/
structure HTTPException where
  status_code : Nat
  detail : String
deriving DecidableEq, Repr

/-- The per-segment system prompt (src/backend/main.py lines 118-119),
including the indentation of the Python triple-quoted f-string. -/
def segmentSystemPrompt (i : Nat) (language_code : String) : String :=
  "You are an expert content summarizer. Create a detailed summary of section "
    ++ toString (i + 1) ++ " in " ++ language_code
    ++ ".\n        Maintain important details, arguments, and connections. This summary will later be part of a comprehensive final summary."

/-- The per-segment user prompt (src/backend/main.py lines 121-125). -/
def segmentUserPrompt (text_chunk : String) : String :=
  "Summarize the following section:\n        - Include key topics, arguments, examples\n        - Ensure logical flow and clarity\n\n        Text: "
    ++ text_chunk

/-- The completion request issued for segment i
(src/backend/main.py lines 119-127). -/
def segmentRequest (model_name language_code : String) (i : Nat)
    (text_chunk : String) : CompletionRequest :=
  { model := model_name
    messages := [⟨"system", segmentSystemPrompt i language_code⟩,
                 ⟨"user", segmentUserPrompt text_chunk⟩]
    temperatureTenths := 7
    max_tokens := 8000 }

/-- The synthesis system prompt (src/backend/main.py lines 145-146); the
source line ends in a space after the language code before the newline. -/
def finalSystemPrompt (language_code : String) : String :=
  "You are an expert summarizer. Create a well-structured summary in "
    ++ language_code
    ++ " \n    from the provided intermediate summaries, ensuring logical connections."

/-- The synthesis user prompt (src/backend/main.py lines 148-154). -/
def finalUserPrompt (combined_summary : String) : String :=
  "Summarize comprehensively:\n    - Keep key points and logical flow\n    - Make it understandable for someone unfamiliar with the content\n    - Highlight any action items\n\n    Intermediate summaries:\n    "
    ++ combined_summary

/-- The single synthesis completion request
(src/backend/main.py lines 157-165). -/
def finalRequest (model_name language_code combined_summary : String) :
    CompletionRequest :=
  { model := model_name
    messages := [⟨"system", finalSystemPrompt language_code⟩,
                 ⟨"user", finalUserPrompt combined_summary⟩]
    temperatureTenths := 7
    max_tokens := 8000 }

/-- The for-loop of summarize_with_groq (src/backend/main.py lines
116-141): issue one completion request per chunk in index order, collect
the responses, and on the first failure raise HTTPException(500,
"Error with Groq API: " + e) without touching later chunks. The first
component of the result is the trace of issued requests in issue order. -/
def runSegmentLoop (oracle : Oracle) (model_name language_code : String) :
    List String → Nat → List CompletionRequest × Except HTTPException (List String)
  | [], _ => ([], Except.ok [])
  | text_chunk :: rest, i =>
      let req := segmentRequest model_name language_code i text_chunk
      match oracle req with
      | Except.error e =>
          ([req], Except.error ⟨500, "Error with Groq API: " ++ e⟩)
      | Except.ok content =>
          let r := runSegmentLoop oracle model_name language_code rest (i + 1)
          (req :: r.1, r.2.map fun tl => content :: tl)

/-- summarize_with_groq (src/backend/main.py lines 112-169): chunk the
transcript, summarize every chunk sequentially, join the intermediate
summaries with the section delimiter, issue the single synthesis request,
and return its text; any completion failure raises HTTPException 500. The
mode parameter is accepted and never read. The first component is the
trace of completion requests in issue order. -/
def summarize_with_groq (oracle : Oracle)
    (transcript language_code model_name mode : String) :
    List CompletionRequest × Except HTTPException String :=
  let texts := pipelineChunks transcript
  let seg := runSegmentLoop oracle model_name language_code texts 0
  match seg.2 with
  | Except.error e => (seg.1, Except.error e)
  | Except.ok intermediate_summaries =>
      let combined_summary :=
        String.intercalate "\n\n=== Next Section ===\n\n" intermediate_summaries
      let freq := finalRequest model_name language_code combined_summary
      match oracle freq with
      | Except.error e =>
          (seg.1 ++ [freq], Except.error ⟨500, "Error with Groq API: " ++ e⟩)
      | Except.ok content => (seg.1 ++ [freq], Except.ok content)

/-- get_transcript (src/backend/main.py lines 82-109). Everything after
video-id extraction — the cookie-file checks, the transcript listing, the
caption-track selection and the fetch (lines 86-105) — is filesystem and
network interaction, abstracted as the environment oracle fetchEnv mapping
the video id to the transcript text and language code, or to the rendered
message of the exception raised in that body. Any exception escaping the
try-body, including the ValueError of extract_video_id, is caught by the
outer handler (lines 108-109) and rewrapped as HTTPException(400, str(e)). -/
def get_transcript (fetchEnv : String → Except String (String × String))
    (youtube_url : String) : Except HTTPException (String × String) :=
  match extract_video_id youtube_url with
  | Except.error e => Except.error ⟨400, e⟩
  | Except.ok video_id =>
      match fetchEnv video_id with
      | Except.error e => Except.error ⟨400, e⟩
      | Except.ok r => Except.ok r

/-- The request body of POST /summarize/ (src/backend/main.py
lines 57-61). -/
structure SummarizationRequest where
  youtube_url : String
  target_language : String
  mode : String
  user_email : String
deriving DecidableEq, Repr

/-- The summarize_video endpoint (src/backend/main.py lines 180-190):
fetch the transcript, run the pipeline with the requested target language
as the language code, and return the summary paired with the target
language. The blanket except-Exception handler on lines 188-190 catches
every exception — the HTTPException(400, ...) values raised by
get_transcript included, since HTTPException subclasses Exception — and
rewraps them all as HTTPException(500, "Internal Server Error"). The
first component is the trace of completion requests issued. -/
def summarize_video (fetchEnv : String → Except String (String × String))
    (oracle : Oracle) (request : SummarizationRequest) :
    List CompletionRequest × Except HTTPException (String × String) :=
  match get_transcript fetchEnv request.youtube_url with
  | Except.error _ => ([], Except.error ⟨500, "Internal Server Error"⟩)
  | Except.ok tr =>
      let run := summarize_with_groq oracle tr.1 request.target_language
        "llama-3.1-8b-instant" request.mode
      match run.2 with
      | Except.error _ => (run.1, Except.error ⟨500, "Internal Server Error"⟩)
      | Except.ok summary => (run.1, Except.ok (summary, request.target_language))

/-- The sequence of segment-summary completion requests for a chunk list,
in segment-index order: request j carries the prompts for chunk j. -/
def segmentTrace (model_name language_code : String) (chunks : List String) :
    List CompletionRequest :=
  chunks.mapIdx fun j c => segmentRequest model_name language_code j c

/-- The combined intermediate-summary document when the completion
service answers segment j with g j: the responses joined with the section
delimiter of src/backend/main.py line 143. -/
def combinedOf (g : Nat → String) (chunks : List String) : String :=
  String.intercalate "\n\n=== Next Section ===\n\n" (chunks.mapIdx fun j _ => g j)

/-! ### Chunker lemmas -/

lemma chunkText_eval (S O : Nat) (l : List Char) :
    chunkText S O l =
      if l.isEmpty then []
      else if l.length ≤ S ∨ S ≤ O then [l]
      else l.take S :: chunkText S O (l.drop (S - O)) := by
  rw [chunkText]

lemma chunkText_eval7 (l : List Char) :
    chunkText 7000 1000 l =
      if l.isEmpty then []
      else if l.length ≤ 7000 then [l]
      else l.take 7000 :: chunkText 7000 1000 (l.drop 6000) := by
  rw [chunkText_eval]
  norm_num

lemma chunkText_single (l : List Char) (h1 : l ≠ []) (h2 : l.length ≤ 7000) :
    chunkText 7000 1000 l = [l] := by
  rw [chunkText_eval7]
  cases l with
  | nil => exact absurd rfl h1
  | cons c cs =>
      simp only [List.isEmpty_cons, Bool.false_eq_true, if_false]
      rw [if_pos h2]

lemma chunkText_step (l : List Char) (h : 7000 < l.length) :
    chunkText 7000 1000 l = l.take 7000 :: chunkText 7000 1000 (l.drop 6000) := by
  rw [chunkText_eval7]
  cases l with
  | nil => simp at h
  | cons c cs =>
      simp only [List.isEmpty_cons, Bool.false_eq_true, if_false]
      rw [if_neg (by omega)]

lemma chunkText_length_eq : ∀ (n : Nat) (l : List Char), l.length ≤ n → l ≠ [] →
    (chunkText 7000 1000 l).length = max 1 ((l.length - 1000 + 5999) / 6000) := by
  intro n
  induction n with
  | zero =>
      intro l hl hne
      cases l with
      | nil => exact absurd rfl hne
      | cons c cs => simp at hl
  | succ n ih =>
      intro l hl hne
      by_cases hs : l.length ≤ 7000
      · rw [chunkText_single l hne hs]
        have hpos : 0 < l.length := List.length_pos.mpr hne
        simp only [List.length_cons, List.length_nil]
        omega
      · rw [chunkText_step l (by omega)]
        have hlen : (l.drop 6000).length = l.length - 6000 := List.length_drop 6000 l
        have hdne : l.drop 6000 ≠ [] := by
          apply List.length_pos.mp
          rw [hlen]; omega
        have hdle : (l.drop 6000).length ≤ n := by rw [hlen]; omega
        have hrec := ih (l.drop 6000) hdle hdne
        simp only [List.length_cons, hrec, hlen]
        omega

lemma chunkText_getElem : ∀ (n : Nat) (l : List Char), l.length ≤ n →
    ∀ i, i < (chunkText 7000 1000 l).length →
      (chunkText 7000 1000 l)[i]? = some ((l.drop (6000 * i)).take 7000) := by
  intro n
  induction n with
  | zero =>
      intro l hl i hi
      cases l with
      | nil => rw [chunkText_eval7] at hi; simp at hi
      | cons c cs => simp at hl
  | succ n ih =>
      intro l hl i hi
      cases l with
      | nil => rw [chunkText_eval7] at hi; simp at hi
      | cons c cs =>
          by_cases hs : (c :: cs).length ≤ 7000
          · rw [chunkText_single _ (List.cons_ne_nil c cs) hs] at hi ⊢
            simp only [List.length_cons, List.length_nil] at hi
            interval_cases i
            simp only [List.getElem?_cons_zero, Nat.mul_zero, List.drop_zero]
            rw [List.take_of_length_le hs]
          · rw [chunkText_step _ (by omega)] at hi ⊢
            cases i with
            | zero =>
                simp only [List.getElem?_cons_zero, Nat.mul_zero, List.drop_zero]
            | succ j =>
                simp only [List.getElem?_cons_succ]
                simp only [List.length_cons] at hi hl hs
                have hdle : ((c :: cs).drop 6000).length ≤ n := by
                  simp only [List.length_drop, List.length_cons]; omega
                have hj : j < (chunkText 7000 1000 ((c :: cs).drop 6000)).length := by
                  simpa using Nat.lt_of_succ_lt_succ hi
                rw [ih ((c :: cs).drop 6000) hdle j hj]
                rw [List.drop_drop]
                have harith : 6000 + 6000 * j = 6000 * (j + 1) := by ring
                rw [harith]

/-! ### Claim theorems: the Chunker -/

/-- C1, counterexample at the empty transcript: chunking yields zero
segments while the claimed count, bounded below by one, is one. -/
theorem chunker_count_empty_counterexample :
    (pipelineChunks "").length = 0 ∧
    max 1 ((("" : String).length - 1000 + 5999) / 6000) = 1 := by
  constructor
  · show ((chunkText 7000 1000 ("" : String).data).map String.mk).length = 0
    rw [show ("" : String).data = [] from rfl, chunkText_eval7]
    rfl
  · decide

/-- C1 (amended to non-empty transcripts): chunking a non-empty transcript
of length L with maximum segment size 7000 and overlap 1000 produces
exactly max 1 (ceil((L - 1000) / 6000)) segments, and segment i is the
substring of length at most 7000 starting at character offset i * 6000. -/
theorem chunker_count_and_starts (t : String) (h : t ≠ "") :
    (pipelineChunks t).length = max 1 ((t.length - 1000 + 5999) / 6000) ∧
    ∀ i, i < (pipelineChunks t).length →
      (pipelineChunks t)[i]? = some (String.mk ((t.data.drop (6000 * i)).take 7000)) := by
  have hd : t.data ≠ [] := by
    intro hh
    apply h
    cases t
    simp only at hh
    rw [hh]
  constructor
  · show ((chunkText 7000 1000 t.data).map String.mk).length = _
    rw [List.length_map]
    exact chunkText_length_eq t.data.length t.data le_rfl hd
  · intro i hi
    show ((chunkText 7000 1000 t.data).map String.mk)[i]? = _
    rw [List.getElem?_map]
    have hi' : i < (chunkText 7000 1000 t.data).length := by
      simpa [pipelineChunks] using hi
    rw [chunkText_getElem t.data.length t.data le_rfl i hi']
    rfl

/-- C1 witness at the scenario of the design document: a 20500-character
transcript yields 4 segments; the first starts at offset 0 with length
7000 and the last starts at offset 18000 with length 2500. -/
theorem chunker_count_witness :
    String.mk (List.replicate 20500 'a') ≠ "" ∧
    (pipelineChunks (String.mk (List.replicate 20500 'a'))).length = 4 ∧
    (pipelineChunks (String.mk (List.replicate 20500 'a')))[0]? =
      some (String.mk (List.replicate 7000 'a')) ∧
    (pipelineChunks (String.mk (List.replicate 20500 'a')))[3]? =
      some (String.mk (List.replicate 2500 'a')) := by
  have hlen : (String.mk (List.replicate 20500 'a')).length = 20500 := by
    show (List.replicate 20500 'a').length = 20500
    rw [List.length_replicate]
  have hne : String.mk (List.replicate 20500 'a') ≠ "" := by
    intro hh
    rw [hh] at hlen
    exact absurd hlen (by decide)
  obtain ⟨hc, hg⟩ := chunker_count_and_starts (String.mk (List.replicate 20500 'a')) hne
  rw [hlen] at hc
  norm_num at hc
  refine ⟨hne, hc, ?_, ?_⟩
  · have h0 := hg 0 (by omega)
    rw [h0]
    show some (String.mk (((List.replicate 20500 'a').drop (6000 * 0)).take 7000)) = _
    rw [Nat.mul_zero, List.drop_zero, List.take_replicate]
    norm_num
  · have h3 := hg 3 (by omega)
    rw [h3]
    show some (String.mk (((List.replicate 20500 'a').drop (6000 * 3)).take 7000)) = _
    rw [List.drop_replicate, List.take_replicate]
    norm_num

/-- C6, counterexample at the empty transcript: it is strictly shorter
than 7000 characters yet the Chunker returns no segment at all rather
than one segment equal to the whole transcript. -/
theorem chunker_short_empty_counterexample :
    ("" : String).length < 7000 ∧ pipelineChunks "" = [] := by
  constructor
  · decide
  · show (chunkText 7000 1000 ("" : String).data).map String.mk = []
    rw [show ("" : String).data = [] from rfl, chunkText_eval7]
    rfl

/-- C6 (amended to non-empty transcripts): a non-empty transcript
strictly shorter than the maximum segment size chunks to exactly one
segment equal to the whole transcript. -/
theorem chunker_short_single (t : String) (h1 : t ≠ "") (h2 : t.length < 7000) :
    pipelineChunks t = [t] := by
  have hd : t.data ≠ [] := by
    intro hh
    apply h1
    cases t
    simp only at hh
    rw [hh]
  show (chunkText 7000 1000 t.data).map String.mk = [t]
  rw [chunkText_single t.data hd (Nat.le_of_lt h2)]
  cases t
  rfl

/-- C6 witness: a concrete five-character transcript chunks to itself. -/
theorem chunker_short_single_witness : pipelineChunks "hello" = ["hello"] :=
  chunker_short_single "hello" (by decide) (by decide)

/-! ### Claim theorems: video-id extraction examples -/

/-- C8: the short-link reference and the bare reference both extract the
identifier dQw4w9WgXcQ, and the reference "not a url" fails extraction
with the ValueError message of the source. -/
theorem extract_video_id_examples :
    extract_video_id "https://youtu.be/dQw4w9WgXcQ" = Except.ok "dQw4w9WgXcQ" ∧
    extract_video_id "dQw4w9WgXcQ" = Except.ok "dQw4w9WgXcQ" ∧
    extract_video_id "not a url" = Except.error "Could not extract video ID from URL" :=
  ⟨rfl, rfl, rfl⟩

/-! ### Segment-loop lemmas -/

lemma runSegmentLoop_ok (oracle : Oracle) (model lang : String) (g : Nat → String) :
    ∀ (chunks : List String) (i : Nat),
      (∀ j, j < chunks.length →
        oracle (segmentRequest model lang (i + j) (chunks.getD j "")) = Except.ok (g (i + j))) →
      runSegmentLoop oracle model lang chunks i =
        (chunks.mapIdx fun j c => segmentRequest model lang (i + j) c,
         Except.ok (chunks.mapIdx fun j _ => g (i + j))) := by
  intro chunks
  induction chunks with
  | nil => intro i _; rfl
  | cons c rest ih =>
      intro i h
      have h0 : oracle (segmentRequest model lang i c) = Except.ok (g i) := by
        have := h 0 (by simp)
        simpa using this
      have hrest : ∀ j, j < rest.length →
          oracle (segmentRequest model lang ((i + 1) + j) (rest.getD j "")) =
            Except.ok (g ((i + 1) + j)) := by
        intro j hj
        have heq : (i + 1) + j = i + (j + 1) := by omega
        rw [heq]
        have := h (j + 1) (by simp; omega)
        simpa using this
      simp only [runSegmentLoop, h0]
      rw [ih (i + 1) hrest]
      have hf1 : (fun j (x : String) => segmentRequest model lang (i + (j + 1)) x) =
          (fun j x => segmentRequest model lang ((i + 1) + j) x) := by
        funext j x
        congr 1
        omega
      have hf2 : (fun j (x : String) => g (i + (j + 1))) =
          (fun j (x : String) => g ((i + 1) + j)) := by
        funext j x
        congr 1
        omega
      simp only [List.mapIdx_cons, Except.map, Nat.add_zero, hf1, hf2]

lemma runSegmentLoop_err (oracle : Oracle) (model lang : String) (g : Nat → String)
    (e : String) :
    ∀ (chunks : List String) (k i : Nat), k < chunks.length →
      (∀ j, j < k →
        oracle (segmentRequest model lang (i + j) (chunks.getD j "")) = Except.ok (g (i + j))) →
      oracle (segmentRequest model lang (i + k) (chunks.getD k "")) = Except.error e →
      runSegmentLoop oracle model lang chunks i =
        ((chunks.take (k + 1)).mapIdx fun j c => segmentRequest model lang (i + j) c,
         Except.error ⟨500, "Error with Groq API: " ++ e⟩) := by
  intro chunks
  induction chunks with
  | nil => intro k i hk _ _; simp at hk
  | cons c rest ih =>
      intro k i hk hok herr
      cases k with
      | zero =>
          have h0 : oracle (segmentRequest model lang i c) = Except.error e := by
            simpa using herr
          simp only [runSegmentLoop, h0, List.take_succ_cons, List.take_zero,
            List.mapIdx_cons, List.mapIdx_nil, Nat.add_zero]
      | succ k =>
          have h0 : oracle (segmentRequest model lang i c) = Except.ok (g i) := by
            have := hok 0 (by omega)
            simpa using this
          have hok' : ∀ j, j < k →
              oracle (segmentRequest model lang ((i + 1) + j) (rest.getD j "")) =
                Except.ok (g ((i + 1) + j)) := by
            intro j hj
            have heq : (i + 1) + j = i + (j + 1) := by omega
            rw [heq]
            have := hok (j + 1) (by omega)
            simpa using this
          have herr' : oracle (segmentRequest model lang ((i + 1) + k) (rest.getD k "")) =
              Except.error e := by
            have heq : (i + 1) + k = i + (k + 1) := by omega
            rw [heq]
            simpa using herr
          have hk' : k < rest.length := by
            simp only [List.length_cons] at hk
            omega
          simp only [runSegmentLoop, h0]
          rw [ih k (i + 1) hk' hok' herr']
          have hf1 : (fun j (x : String) => segmentRequest model lang (i + (j + 1)) x) =
              (fun j x => segmentRequest model lang ((i + 1) + j) x) := by
            funext j x
            congr 1
            omega
          simp only [List.take_succ_cons, List.mapIdx_cons, Except.map, Nat.add_zero, hf1]

/-! ### Claim theorems: the two-stage pipeline -/

/-- C3: if the completion call for segment k fails while the calls for
segments 0..k-1 succeed, the pipeline issues exactly the requests for
segments 0..k — none for later segments and no synthesis request — and
reports the server-fault error HTTPException(500) instead of any partial
summary. -/
theorem pipeline_segment_failure (oracle : Oracle)
    (transcript lang model mode : String) (g : Nat → String) (e : String) (k : Nat)
    (hk : k < (pipelineChunks transcript).length)
    (hok : ∀ j, j < k →
      oracle (segmentRequest model lang j ((pipelineChunks transcript).getD j "")) =
        Except.ok (g j))
    (herr : oracle (segmentRequest model lang k ((pipelineChunks transcript).getD k "")) =
        Except.error e) :
    summarize_with_groq oracle transcript lang model mode =
      (segmentTrace model lang ((pipelineChunks transcript).take (k + 1)),
       Except.error ⟨500, "Error with Groq API: " ++ e⟩) := by
  have hloop := runSegmentLoop_err oracle model lang g e (pipelineChunks transcript) k 0 hk
    (by intro j hj; simpa using hok j hj) (by simpa using herr)
  simp only [summarize_with_groq, hloop]
  simp only [segmentTrace, Nat.zero_add]

/-- C3 witness: a three-character transcript chunks into one segment; an
oracle that fails every completion call makes the pipeline issue exactly
the one segment request and return the 500 error. -/
theorem pipeline_segment_failure_witness :
    summarize_with_groq (fun _ => Except.error "boom") "abc" "en" "m" "video" =
      (segmentTrace "m" "en" ((pipelineChunks "abc").take 1),
       Except.error ⟨500, "Error with Groq API: boom"⟩) :=
  pipeline_segment_failure (fun _ => Except.error "boom") "abc" "en" "m" "video"
    (fun _ => "") "boom" 0
    (by
      show 0 < ((chunkText 7000 1000 "abc".data).map String.mk).length
      rw [chunkText_single "abc".data (by decide) (by decide)]
      decide)
    (by omega)
    rfl

/-- C4: when every segment-summary call succeeds but the synthesis call
fails, the pipeline returns the server-fault error HTTPException(500) and
never the intermediate summaries: the error is the whole result. -/
theorem pipeline_synthesis_failure (oracle : Oracle)
    (transcript lang model mode : String) (g : Nat → String) (e : String)
    (hseg : ∀ j, j < (pipelineChunks transcript).length →
      oracle (segmentRequest model lang j ((pipelineChunks transcript).getD j "")) =
        Except.ok (g j))
    (hfin : oracle (finalRequest model lang (combinedOf g (pipelineChunks transcript))) =
        Except.error e) :
    summarize_with_groq oracle transcript lang model mode =
      (segmentTrace model lang (pipelineChunks transcript) ++
        [finalRequest model lang (combinedOf g (pipelineChunks transcript))],
       Except.error ⟨500, "Error with Groq API: " ++ e⟩) := by
  have hloop := runSegmentLoop_ok oracle model lang g (pipelineChunks transcript) 0
    (by intro j hj; simpa using hseg j hj)
  simp only [summarize_with_groq, hloop, Nat.zero_add]
  rw [show (String.intercalate "\n\n=== Next Section ===\n\n"
      ((pipelineChunks transcript).mapIdx fun j _ => g j)) =
        combinedOf g (pipelineChunks transcript) from rfl]
  rw [hfin]
  simp only [segmentTrace]

/-- C4 witness: one segment summarized successfully, then the synthesis
call fails; the pipeline returns the 500 error, not the intermediate
summary. The oracle tells the two request kinds apart by character 10 of
the user prompt, where the segment prompt reads "the" and the synthesis
prompt reads "comprehensively". -/
theorem pipeline_synthesis_failure_witness :
    summarize_with_groq
        (fun r => if ((r.messages.getD 1 ⟨"", ""⟩).content.data.getD 10 ' ') = 't'
          then Except.ok "part" else Except.error "down")
        "abc" "en" "m" "video" =
      (segmentTrace "m" "en" (pipelineChunks "abc") ++
        [finalRequest "m" "en" (combinedOf (fun _ => "part") (pipelineChunks "abc"))],
       Except.error ⟨500, "Error with Groq API: down"⟩) := by
  have hchunks : pipelineChunks "abc" = ["abc"] := by
    show (chunkText 7000 1000 "abc".data).map String.mk = ["abc"]
    rw [chunkText_single "abc".data (by decide) (by decide)]
    rfl
  apply pipeline_synthesis_failure
  · intro j hj
    rw [hchunks] at hj ⊢
    simp only [List.length_cons, List.length_nil] at hj
    have hj0 : j = 0 := by omega
    subst hj0
    rfl
  · rfl

/-- C5: in a run where every completion call succeeds, the pipeline
issues the N segment-summary requests in segment-index order — the
functional sequencing of the loop means request j+1 is constructed only
after response j is consumed — followed by exactly one synthesis request,
and returns exactly the one combined-summary string of the synthesis
response. -/
theorem pipeline_sequential_success (oracle : Oracle)
    (transcript lang model mode : String) (g : Nat → String) (s : String)
    (hseg : ∀ j, j < (pipelineChunks transcript).length →
      oracle (segmentRequest model lang j ((pipelineChunks transcript).getD j "")) =
        Except.ok (g j))
    (hfin : oracle (finalRequest model lang (combinedOf g (pipelineChunks transcript))) =
        Except.ok s) :
    summarize_with_groq oracle transcript lang model mode =
      (segmentTrace model lang (pipelineChunks transcript) ++
        [finalRequest model lang (combinedOf g (pipelineChunks transcript))],
       Except.ok s) := by
  have hloop := runSegmentLoop_ok oracle model lang g (pipelineChunks transcript) 0
    (by intro j hj; simpa using hseg j hj)
  simp only [summarize_with_groq, hloop, Nat.zero_add]
  rw [show (String.intercalate "\n\n=== Next Section ===\n\n"
      ((pipelineChunks transcript).mapIdx fun j _ => g j)) =
        combinedOf g (pipelineChunks transcript) from rfl]
  rw [hfin]
  simp only [segmentTrace]

/-- C5 witness: with an always-succeeding oracle, a one-segment
transcript produces the segment request followed by the synthesis
request and the single summary string. -/
theorem pipeline_sequential_success_witness :
    summarize_with_groq (fun _ => Except.ok "text") "abc" "en" "m" "video" =
      (segmentTrace "m" "en" (pipelineChunks "abc") ++
        [finalRequest "m" "en" (combinedOf (fun _ => "text") (pipelineChunks "abc"))],
       Except.ok "text") :=
  pipeline_sequential_success (fun _ => Except.ok "text") "abc" "en" "m" "video"
    (fun _ => "text") "text" (fun _ _ => rfl) rfl

/-- C7: the empty transcript chunks to the empty segment sequence, the
pipeline issues zero segment-summary requests — its only completion
request is the single synthesis call over the empty intermediate-summary
document — and it completes without error when that call succeeds. -/
theorem pipeline_empty_transcript (oracle : Oracle) (lang model mode s : String)
    (hfin : oracle (finalRequest model lang "") = Except.ok s) :
    pipelineChunks "" = [] ∧
    summarize_with_groq oracle "" lang model mode =
      ([finalRequest model lang ""], Except.ok s) := by
  have hchunks : pipelineChunks "" = [] := by
    show (chunkText 7000 1000 ("" : String).data).map String.mk = []
    rw [show ("" : String).data = [] from rfl, chunkText_eval7]
    rfl
  refine ⟨hchunks, ?_⟩
  simp only [summarize_with_groq, hchunks, runSegmentLoop]
  rw [show String.intercalate "\n\n=== Next Section ===\n\n" [] = "" from rfl]
  rw [hfin]
  simp

/-- C7 witness: a concrete always-succeeding oracle on the empty
transcript. -/
theorem pipeline_empty_transcript_witness :
    pipelineChunks "" = [] ∧
    summarize_with_groq (fun _ => Except.ok "done") "" "en" "m" "video" =
      ([finalRequest "m" "en" ""], Except.ok "done") :=
  pipeline_empty_transcript (fun _ => Except.ok "done") "en" "m" "video" "done" rfl

/-! ### Claim theorems: the endpoint -/

/-- C2, the code against the claim: an unparseable video reference does
produce HTTPException(400, "Could not extract video ID from URL") inside
get_transcript, but the blanket except-Exception handler of the
summarize_video endpoint catches it and the caller receives
HTTPException(500, "Internal Server Error") — a server-fault status with
a generic message, not the claimed client-fault status with a
descriptive message. -/
theorem unparseable_reference_gets_500 (fetchEnv : String → Except String (String × String))
    (oracle : Oracle) (tl mode email : String) :
    get_transcript fetchEnv "not a url" =
      Except.error ⟨400, "Could not extract video ID from URL"⟩ ∧
    summarize_video fetchEnv oracle ⟨"not a url", tl, mode, email⟩ =
      ([], Except.error ⟨500, "Internal Server Error"⟩) :=
  ⟨rfl, rfl⟩

/-- C9: the mode field is accepted but never read: two requests that are
identical except for mode issue the same completion requests and produce
the same result. -/
theorem mode_noninterference (fetchEnv : String → Except String (String × String))
    (oracle : Oracle) (r₁ r₂ : SummarizationRequest)
    (h1 : r₁.youtube_url = r₂.youtube_url)
    (h2 : r₁.target_language = r₂.target_language)
    (h3 : r₁.user_email = r₂.user_email) :
    summarize_video fetchEnv oracle r₁ = summarize_video fetchEnv oracle r₂ := by
  obtain ⟨u₁, t₁, m₁, e₁⟩ := r₁
  obtain ⟨u₂, t₂, m₂, e₂⟩ := r₂
  have h1' : u₁ = u₂ := h1
  have h2' : t₁ = t₂ := h2
  have h3' : e₁ = e₂ := h3
  subst h1'
  subst h2'
  subst h3'
  rfl

/-- C9 witness: two concrete requests differing only in mode give the
same trace and result. -/
theorem mode_noninterference_witness :
    summarize_video (fun _ => Except.ok ("t", "en")) (fun _ => Except.ok "s")
      ⟨"dQw4w9WgXcQ", "en", "video", "user@example.com"⟩ =
    summarize_video (fun _ => Except.ok ("t", "en")) (fun _ => Except.ok "s")
      ⟨"dQw4w9WgXcQ", "en", "other", "user@example.com"⟩ :=
  mode_noninterference _ _ _ _ rfl rfl rfl

/-! ### Extractor invariant lemmas -/

lemma ite_opt_some {p : Prop} [Decidable p] {t : Option (List Char)} {g : List Char}
    (h : (if p then t else none) = some g) : t = some g := by
  split at h
  · exact h
  · exact absurd h (by simp)

lemma matchClass11_spec (l g : List Char) (h : matchClass11 l = some g) :
    g.length = 11 ∧ g.all idChar = true := by
  simp only [matchClass11] at h
  split at h
  · rename_i hc
    injection h with h
    subst h
    exact hc
  · exact absurd h (by simp)

lemma matchBare_spec (l g : List Char) (h : matchBare l = some g) :
    g.length = 11 ∧ g.all idChar = true := by
  unfold matchBare at h
  split at h
  · rename_i hc
    injection h with h
    subst h
    exact hc
  · exact absurd h (by simp)

lemma searchVSlash_spec : ∀ l g, searchVSlash l = some g →
    g.length = 11 ∧ g.all idChar = true := by
  intro l
  induction l with
  | nil => intro g h; simp [searchVSlash] at h
  | cons c rest ih =>
      intro g h
      rw [searchVSlash] at h
      split at h
      · rename_i g1 hm1
        injection h with h
        subst h
        exact matchClass11_spec _ _ (ite_opt_some hm1)
      · split at h
        · rename_i g2 hm2
          injection h with h
          subst h
          exact matchClass11_spec _ _ (ite_opt_some hm2)
        · exact ih g h

lemma searchLit_spec (lit : List Char) : ∀ l g, searchLit lit l = some g →
    g.length = 11 ∧ g.all idChar = true := by
  intro l
  induction l with
  | nil => intro g h; simp [searchLit] at h
  | cons c rest ih =>
      intro g h
      rw [searchLit] at h
      split at h
      · rename_i g1 hm1
        injection h with h
        subst h
        exact matchClass11_spec _ _ (ite_opt_some hm1)
      · exact ih g h

lemma extractCore_spec (l g : List Char) (h : extractCore l = some g) :
    g.length = 11 ∧ g.all idChar = true := by
  unfold extractCore at h
  split at h
  · rename_i g1 hm
    injection h with h
    subst h
    exact searchVSlash_spec _ _ hm
  · split at h
    · rename_i g2 hm
      injection h with h
      subst h
      exact searchLit_spec _ _ _ hm
    · split at h
      · rename_i g3 hm
        injection h with h
        subst h
        exact searchLit_spec _ _ _ hm
      · split at h
        · rename_i g4 hm
          injection h with h
          subst h
          exact searchLit_spec _ _ _ hm
        · exact matchBare_spec _ _ h

lemma dropWhile_append_of_all {p : Char → Bool} :
    ∀ (w t : List Char), (∀ c ∈ w, p c = true) →
      List.dropWhile p (w ++ t) = List.dropWhile p t := by
  intro w
  induction w with
  | nil => intro t _; rfl
  | cons a w ih =>
      intro t h
      have ha : p a = true := h a (List.mem_cons_self a w)
      rw [List.cons_append, List.dropWhile_cons, if_pos ha]
      exact ih t (fun c hc => h c (List.mem_cons_of_mem a hc))

lemma dropWhile_append_of_ne_nil {p : Char → Bool} :
    ∀ (s w : List Char), List.dropWhile p s ≠ [] →
      List.dropWhile p (s ++ w) = List.dropWhile p s ++ w := by
  intro s
  induction s with
  | nil => intro w h; exact absurd rfl h
  | cons a s ih =>
      intro w h
      rw [List.cons_append, List.dropWhile_cons]
      rw [List.dropWhile_cons] at h
      conv_rhs => rw [List.dropWhile_cons]
      by_cases ha : p a = true
      · rw [if_pos ha]
        rw [if_pos ha] at h
        conv_rhs => rw [if_pos ha]
        exact ih w h
      · rw [if_neg ha]
        conv_rhs => rw [if_neg ha]
        rfl

lemma pyStrip_pad (u w₁ w₂ : List Char)
    (h1 : ∀ c ∈ w₁, isSpaceChar c = true) (h2 : ∀ c ∈ w₂, isSpaceChar c = true) :
    pyStrip (w₁ ++ u ++ w₂) = pyStrip u := by
  unfold pyStrip
  rw [List.append_assoc, dropWhile_append_of_all w₁ (u ++ w₂) h1]
  by_cases hu : List.dropWhile isSpaceChar u = []
  · have hall : ∀ c ∈ u, isSpaceChar c = true := List.dropWhile_eq_nil_iff.mp hu
    rw [dropWhile_append_of_all u w₂ hall, List.dropWhile_eq_nil_iff.mpr h2, hu]
  · rw [dropWhile_append_of_ne_nil u w₂ hu, List.reverse_append,
      dropWhile_append_of_all w₂.reverse (List.dropWhile isSpaceChar u).reverse
        (fun c hc => h2 c (List.mem_reverse.mp hc))]

/-! ### Claim theorems: extractor invariants -/

/-- C10: every successful extraction returns an identifier of exactly 11
characters drawn from the class of ASCII letters, digits, hyphen and
underscore, and extraction is insensitive to leading and trailing
whitespace because the input is stripped before pattern matching. -/
theorem extract_video_id_invariants :
    (∀ u id, extract_video_id u = Except.ok id →
      id.length = 11 ∧ id.data.all idChar = true) ∧
    (∀ (u : String) (w₁ w₂ : List Char),
      (∀ c ∈ w₁, isSpaceChar c = true) → (∀ c ∈ w₂, isSpaceChar c = true) →
      extract_video_id (String.mk (w₁ ++ u.data ++ w₂)) = extract_video_id u) := by
  constructor
  · intro u id h
    unfold extract_video_id at h
    split at h
    · rename_i g hm
      injection h with h
      subst h
      exact extractCore_spec _ _ hm
    · exact absurd h (by simp)
  · intro u w₁ w₂ h1 h2
    show (match extractCore (pyStrip (String.mk (w₁ ++ u.data ++ w₂)).data) with
        | some g => Except.ok (String.mk g)
        | none => Except.error "Could not extract video ID from URL") =
      extract_video_id u
    rw [show (String.mk (w₁ ++ u.data ++ w₂)).data = w₁ ++ u.data ++ w₂ from rfl]
    rw [pyStrip_pad u.data w₁ w₂ h1 h2]
    rfl

/-- C10 witness: a concrete identifier padded with a space, a tab and a
newline extracts the same as the bare identifier, which is 11 class
characters long. -/
theorem extract_video_id_invariants_witness :
    ("dQw4w9WgXcQ".length = 11 ∧ "dQw4w9WgXcQ".data.all idChar = true) ∧
    extract_video_id (String.mk ([' ', '\t'] ++ "dQw4w9WgXcQ".data ++ ['\n'])) =
      extract_video_id "dQw4w9WgXcQ" :=
  ⟨extract_video_id_invariants.1 "dQw4w9WgXcQ" "dQw4w9WgXcQ" rfl,
   extract_video_id_invariants.2 "dQw4w9WgXcQ" [' ', '\t'] ['\n'] (by decide) (by decide)⟩

end YtNotes
